import Mathlib

/-!
Verification of the tokenizer dispatch and fallback engine of the
word-embedding Flask application (src/app.py).

The embedding models:
- `pyIsSpace`: Python's `str.isspace` on a single character (the Unicode
  whitespace set Python uses);
- `tokenize_gpt2` and its character-chunk fallback scanner (app.py lines 44-80);
- `tokenize_t5`, the punctuation-aware splitter (app.py lines 83-117);
- the transformers-backed adapters `tokenize_bert`, `tokenize_phi3`,
  `tokenize_llama2` and the tiktoken-backed `tokenize_gpt4` (external
  resources are supplied through an `Env` record: `some f` is a primary
  resource whose `encode` succeeds with `f text`, `none` is a classified
  caught failure);
- `create_colored_tokens` / `generate_random_color` with the global random
  stream modelled as an explicit `Nat → Nat` stream and a cursor;
- the `/tokenize` request handler `tokenize_route` (app.py lines 216-276).
-/

namespace WordEmbed

/-- Python's single-character `str.isspace`: true exactly on the Unicode
whitespace characters Python recognises. -/
def pyIsSpace (c : Char) : Bool :=
  let n := c.toNat
  (9 ≤ n && n ≤ 13) || (28 ≤ n && n ≤ 31) || n == 32 || n == 133 || n == 160 ||
  n == 5760 || (8192 ≤ n && n ≤ 8202) || n == 8232 || n == 8233 ||
  n == 8239 || n == 8287 || n == 12288

/-- Python's `str.isspace` on a whole token (as a character list): non-empty
and every character is whitespace. -/
def pyStrIsSpace (t : List Char) : Bool :=
  !t.isEmpty && t.all pyIsSpace

/-! ### Character-chunk fallback of `tokenize_gpt2` (app.py lines 55-80) -/

/-- Emission of an accumulated buffer in the gpt2 fallback: a run longer
than 3 characters is split into `current_token[:2]` and `current_token[2:]`,
otherwise it is one token (app.py lines 62-67 and 74-78). -/
def gpt2Emit (buf : List Char) : List (List Char) :=
  if 3 < buf.length then [buf.take 2, buf.drop 2] else [buf]

/-- One iteration of the gpt2 fallback `for char in text` loop.  State is
`(tokens, current_token)`. -/
def gpt2Step (st : List (List Char) × List Char) (c : Char) :
    List (List Char) × List Char :=
  if pyIsSpace c then
    ((if st.2 = [] then st.1 else st.1 ++ gpt2Emit st.2) ++ [[c]], [])
  else
    (st.1, st.2 ++ [c])

/-- The gpt2 fallback scanner: run the loop over the text, then flush a
non-empty final buffer with the same length rule (app.py lines 55-78),
before the sentinel check. -/
def gpt2FallbackCore (text : List Char) : List (List Char) :=
  let st := text.foldl gpt2Step ([], [])
  if st.2 = [] then st.1 else st.1 ++ gpt2Emit st.2

/-- The full fallback branch of `tokenize_gpt2`: the scan, with the sentinel
`"[Tokenization failed]"` when the scan produced nothing (app.py line 80). -/
def gpt2_fallback (text : String) : List String :=
  let toks := (gpt2FallbackCore text.data).map String.mk
  if toks = [] then ["[Tokenization failed]"] else toks

/-! ### Punctuation-aware splitter `tokenize_t5` (app.py lines 83-117) -/

/-- The sentence punctuation set `".,!?;:"` of `tokenize_t5`. -/
def t5Punct : List Char := ['.', ',', '!', '?', ';', ':']

/-- One iteration of the `tokenize_t5` `for char in text` loop: whitespace
and punctuation both flush the buffer and are emitted as their own tokens
(app.py lines 97-109). -/
def t5Step (st : List (List Char) × List Char) (c : Char) :
    List (List Char) × List Char :=
  if pyIsSpace c || c ∈ t5Punct then
    ((if st.2 = [] then st.1 else st.1 ++ [st.2]) ++ [[c]], [])
  else
    (st.1, st.2 ++ [c])

/-- The `tokenize_t5` scanner: run the loop, then flush a non-empty final
buffer (app.py lines 94-112).  No sentinel follows. -/
def t5ScanCore (text : List Char) : List (List Char) :=
  let st := text.foldl t5Step ([], [])
  if st.2 = [] then st.1 else st.1 ++ [st.2]

/-- The T5 word-start marker glyph (U+2581). -/
def t5Marker : Char := Char.ofNat 9601

/-- The marker pass of `tokenize_t5`: `"▁" + token if not token.isspace()
else token` (app.py line 115). -/
def t5Mark (t : List Char) : List Char :=
  if pyStrIsSpace t then t else t5Marker :: t

/-- `tokenize_t5` (app.py lines 83-117): scan, then add the T5 word-start
markers. -/
def tokenize_t5 (text : String) : List String :=
  ((t5ScanCore text.data).map t5Mark).map String.mk

/-- Strip one leading word-start marker from a token, when present.  This is
the inverse decoration used to state the concatenation property. -/
def stripMarkerL (t : List Char) : List Char :=
  match t with
  | c :: rest => if c = t5Marker then rest else t
  | [] => t

/-- `stripMarkerL` lifted to `String`. -/
def stripMarker (t : String) : String :=
  String.mk (stripMarkerL t.data)

/-! ### Recursive forms of the two scanners, for reasoning -/

/-- The gpt2 fallback scanner written by structural recursion on the text,
carrying the current buffer. -/
def gpt2Scan : List Char → List Char → List (List Char)
  | buf, [] => if buf = [] then [] else gpt2Emit buf
  | buf, c :: cs =>
    if pyIsSpace c then
      (if buf = [] then [] else gpt2Emit buf) ++ [c] :: gpt2Scan [] cs
    else
      gpt2Scan (buf ++ [c]) cs

/-- Decomposition of a text into its whitespace characters (as singleton
segments) and its maximal runs of consecutive non-whitespace characters. -/
def segs : List Char → List Char → List (List Char)
  | buf, [] => if buf = [] then [] else [buf]
  | buf, c :: cs =>
    if pyIsSpace c then
      (if buf = [] then [] else [buf]) ++ [c] :: segs [] cs
    else
      segs (buf ++ [c]) cs

/-- The `tokenize_t5` scanner written by structural recursion on the text. -/
def t5Scan : List Char → List Char → List (List Char)
  | buf, [] => if buf = [] then [] else [buf]
  | buf, c :: cs =>
    if pyIsSpace c || c ∈ t5Punct then
      (if buf = [] then [] else [buf]) ++ [c] :: t5Scan [] cs
    else
      t5Scan (buf ++ [c]) cs

/-! ### Generalized punctuation splitter (not present in src/) -/

/-- The extended punctuation set of the generalized splitter, written
`. , ! ? ; : " ' ( ) [ ] { }` in the specification. -/
def generalPunct : List Char :=
  ['.', ',', '!', '?', ';', ':', Char.ofNat 34, Char.ofNat 39,
   '(', ')', '[', ']'] ++ [Char.ofNat 123, Char.ofNat 125]

/-- Modelled from the spec: one loop iteration of the generalized
punctuation splitter, a segmenter the specification describes but whose
code is not under src/.  Same scanning strategy as the others, with the
extended punctuation set forced into its own tokens; a plain space flushes
the buffer but is consumed silently, while any other whitespace character
is emitted as its own token. -/
def generalStep (st : List (List Char) × List Char) (c : Char) :
    List (List Char) × List Char :=
  if c = ' ' then
    (if st.2 = [] then st.1 else st.1 ++ [st.2], [])
  else if pyIsSpace c then
    ((if st.2 = [] then st.1 else st.1 ++ [st.2]) ++ [[c]], [])
  else if c ∈ generalPunct then
    ((if st.2 = [] then st.1 else st.1 ++ [st.2]) ++ [[c]], [])
  else
    (st.1, st.2 ++ [c])

/-- Modelled from the spec: the generalized punctuation splitter
(word-level surrogate segmenter), absent from src/.  Runs the scan, flushes
a final non-empty buffer, and falls back to a single sentinel diagnostic
token when scanning yields nothing, as the specification requires of every
segmenter. -/
def tokenize_general (text : String) : List String :=
  let st := text.data.foldl generalStep ([], [])
  let toks := (if st.2 = [] then st.1 else st.1 ++ [st.2]).map String.mk
  if toks = [] then ["[Tokenization failed]"] else toks

/-! ### External resources and the backend adapters -/

/-- The external resources the adapters call.  `some f` models a primary
resource whose `encode(text)` call succeeds and returns `f text`; `none`
models a failure of one of the classified kinds the adapter catches
(unavailable, missing, unsupported runtime, rejected input). -/
structure Env where
  transformers_available : Bool
  tiktoken_gpt2 : Option (String → List String)
  tiktoken_cl100k : Option (String → List String)
  bert_tok : Option (String → List String)
  phi2_tok : Option (String → List String)
  llama2_tok : Option (String → List (String × Nat))

/-- `tokenize_gpt2` (app.py lines 44-80): primary tiktoken path, with the
character-chunk fallback on a caught failure.  The primary path returns the
decoded token strings with no emptiness check. -/
def tokenize_gpt2 (env : Env) (text : String) : List String :=
  match env.tiktoken_gpt2 with
  | some encode => encode text
  | none => gpt2_fallback text

/-- `tokenize_gpt4` (app.py lines 135-145): cl100k_base path with an
emptiness sentinel, and a terminal sentinel on a caught failure. -/
def tokenize_gpt4 (env : Env) (text : String) : List String :=
  match env.tiktoken_cl100k with
  | some encode =>
    let token_strings := encode text
    if token_strings = [] then ["[Empty tokenization]"] else token_strings
  | none => ["[GPT-4 tokenization failed: Encoding not available offline]"]

/-- `tokenize_bert` (app.py lines 120-132). -/
def tokenize_bert (env : Env) (text : String) : List String :=
  if !env.transformers_available then
    ["[Transformers library not available]"]
  else
    match env.bert_tok with
    | some tok =>
      let tokens := tok text
      if tokens = [] then ["[Empty tokenization]"] else tokens
    | none => ["[BERT tokenization failed: Model not available offline]"]

/-- `tokenize_phi3` (app.py lines 148-166). -/
def tokenize_phi3 (env : Env) (text : String) : List String :=
  if !env.transformers_available then
    ["[Transformers library not available]"]
  else
    match env.phi2_tok with
    | some tok =>
      let tokens := tok text
      if tokens = [] then ["[Empty tokenization]"] else tokens
    | none => ["[Phi-3 tokenization failed: Model not available offline]"]

/-- `tokenize_llama2` (app.py lines 169-192): tokens are paired with their
numeric ids and rendered as `"<token> [<id>]"`. -/
def tokenize_llama2 (env : Env) (text : String) : List String :=
  if !env.transformers_available then
    ["[Transformers library not available]"]
  else
    match env.llama2_tok with
    | some tok =>
      let result_tokens :=
        (tok text).map fun p => p.1 ++ " [" ++ toString p.2 ++ "]"
      if result_tokens = [] then ["[Empty tokenization]"] else result_tokens
    | none => ["[LLaMA 2 tokenization failed: Model not available offline]"]

/-! ### Presentation annotator and the request handler -/

/-- A token decorated with a display color (app.py lines 195-207). -/
structure ColoredToken where
  text : String
  color : String
deriving Repr, DecidableEq

/-- `generate_random_color` (app.py lines 35-41): three draws from the
global random stream, each mapped into the pastel range 150..255, rendered
as an rgb string.  The stream is `g`, the cursor `k`; the result carries
the advanced cursor. -/
def generate_random_color (g : Nat → Nat) (k : Nat) : String × Nat :=
  let r := 150 + g k % 106
  let gr := 150 + g (k + 1) % 106
  let b := 150 + g (k + 2) % 106
  ("rgb(" ++ toString r ++ ", " ++ toString gr ++ ", " ++ toString b ++ ")",
   k + 3)

/-- `create_colored_tokens` (app.py lines 195-207): pair every token with a
freshly drawn color, in order, threading the random cursor. -/
def create_colored_tokens (g : Nat → Nat) :
    Nat → List String → List ColoredToken × Nat
  | k, [] => ([], k)
  | k, t :: ts =>
    let c := generate_random_color g k
    let rest := create_colored_tokens g c.2 ts
    (⟨t, c.1⟩ :: rest.1, rest.2)

/-- One backend's entry in the aggregate response (app.py lines 237-274). -/
structure BackendResult where
  name : String
  description : String
  tokens : List ColoredToken
  count : Nat
deriving Repr, DecidableEq

/-- The `/tokenize` request handler (app.py lines 216-276).  `body` is the
`text` field of the request JSON (`none` when missing); an empty text is
rejected with HTTP 400 before any backend runs, otherwise all six backends
are tokenized and serialized in the configured order. -/
def tokenize_route (g : Nat → Nat) (env : Env) (body : Option String) :
    Except (Nat × String) (List (String × BackendResult)) :=
  let text := body.getD ""
  if text = "" then
    .error (400, "No text provided")
  else
    let gpt2_tokens := tokenize_gpt2 env text
    let gpt4_tokens := tokenize_gpt4 env text
    let bert_tokens := tokenize_bert env text
    let t5_tokens := tokenize_t5 text
    let llama2_tokens := tokenize_llama2 env text
    let phi3_tokens := tokenize_phi3 env text
    let p1 := create_colored_tokens g 0 gpt2_tokens
    let p2 := create_colored_tokens g p1.2 gpt4_tokens
    let p3 := create_colored_tokens g p2.2 bert_tokens
    let p4 := create_colored_tokens g p3.2 t5_tokens
    let p5 := create_colored_tokens g p4.2 llama2_tokens
    let p6 := create_colored_tokens g p5.2 phi3_tokens
    .ok
      [("gpt2",
        ⟨"GPT-2/GPT-3",
         "BPE tokenizer from OpenAI with 50,257 vocabulary tokens.",
         p1.1, gpt2_tokens.length⟩),
       ("gpt4",
        ⟨"GPT-4",
         "Enhanced BPE tokenizer from OpenAI with 100,000 vocabulary tokens.",
         p2.1, gpt4_tokens.length⟩),
       ("bert",
        ⟨"BERT",
         "WordPiece tokenizer (uncased) from Google with 30,522 vocabulary tokens.",
         p3.1, bert_tokens.length⟩),
       ("t5",
        ⟨"T5/UL2",
         "SentencePiece tokenizer from Google with 32,128 vocabulary tokens.",
         p4.1, t5_tokens.length⟩),
       ("llama2",
        ⟨"LLaMA 2",
         "SentencePiece tokenizer from Meta with 32,000 vocabulary tokens.",
         p5.1, llama2_tokens.length⟩),
       ("phi3",
        ⟨"Phi-3",
         "CodeGen tokenizer from Microsoft with 51,200 vocabulary tokens.",
         p6.1, phi3_tokens.length⟩)]

/-- The aggregate response produced by `tokenize_route` for the request
text `"hi"` with every external resource failed, transformers absent, and
the constant-zero random stream.  Used to exhibit concrete handler
behaviour. -/
def routeResultHi : List (String × BackendResult) :=
  [("gpt2",
    ⟨"GPT-2/GPT-3",
     "BPE tokenizer from OpenAI with 50,257 vocabulary tokens.",
     [⟨"hi", "rgb(150, 150, 150)"⟩], 1⟩),
   ("gpt4",
    ⟨"GPT-4",
     "Enhanced BPE tokenizer from OpenAI with 100,000 vocabulary tokens.",
     [⟨"[GPT-4 tokenization failed: Encoding not available offline]",
       "rgb(150, 150, 150)"⟩], 1⟩),
   ("bert",
    ⟨"BERT",
     "WordPiece tokenizer (uncased) from Google with 30,522 vocabulary tokens.",
     [⟨"[Transformers library not available]", "rgb(150, 150, 150)"⟩], 1⟩),
   ("t5",
    ⟨"T5/UL2",
     "SentencePiece tokenizer from Google with 32,128 vocabulary tokens.",
     [⟨"▁hi", "rgb(150, 150, 150)"⟩], 1⟩),
   ("llama2",
    ⟨"LLaMA 2",
     "SentencePiece tokenizer from Meta with 32,000 vocabulary tokens.",
     [⟨"[Transformers library not available]", "rgb(150, 150, 150)"⟩], 1⟩),
   ("phi3",
    ⟨"Phi-3",
     "CodeGen tokenizer from Microsoft with 51,200 vocabulary tokens.",
     [⟨"[Transformers library not available]", "rgb(150, 150, 150)"⟩], 1⟩)]

/-! ### Lemmas about the scanners -/

/-- The final flush of the gpt2 fallback scanner. -/
def gpt2Finish (st : List (List Char) × List Char) : List (List Char) :=
  if st.2 = [] then st.1 else st.1 ++ gpt2Emit st.2

/-- The final flush of the `tokenize_t5` scanner. -/
def t5Finish (st : List (List Char) × List Char) : List (List Char) :=
  if st.2 = [] then st.1 else st.1 ++ [st.2]

/-- The gpt2 fallback loop followed by the final flush equals the recursive
scanner, for any starting tokens and buffer. -/
theorem gpt2_foldl_eq (cs : List Char) :
    ∀ (toks : List (List Char)) (buf : List Char),
      gpt2Finish (cs.foldl gpt2Step (toks, buf)) = toks ++ gpt2Scan buf cs := by
  induction cs with
  | nil =>
    intro toks buf
    simp only [List.foldl_nil, gpt2Scan, gpt2Finish]
    split
    · simp_all
    · rfl
  | cons c cs ih =>
    intro toks buf
    simp only [List.foldl_cons, gpt2Scan, gpt2Step]
    by_cases hc : pyIsSpace c
    · simp only [hc, if_true]
      rw [ih]
      by_cases hb : buf = [] <;> simp [hb, List.append_assoc]
    · simp only [hc, if_false]
      exact ih toks (buf ++ [c])

/-- `gpt2FallbackCore` equals the recursive scanner started empty. -/
theorem gpt2FallbackCore_eq (text : List Char) :
    gpt2FallbackCore text = gpt2Scan [] text := by
  have h := gpt2_foldl_eq text [] []
  simpa [gpt2FallbackCore, gpt2Finish] using h

/-- A buffer of at most 3 characters is emitted whole. -/
theorem gpt2Emit_short (buf : List Char) (h : buf.length ≤ 3) :
    gpt2Emit buf = [buf] := by
  simp [gpt2Emit, Nat.not_lt.mpr h]

/-- The recursive gpt2 scanner is the run decomposition with `gpt2Emit`
applied to every segment. -/
theorem gpt2Scan_eq_segs (cs : List Char) :
    ∀ buf, gpt2Scan buf cs = (segs buf cs).flatMap gpt2Emit := by
  induction cs with
  | nil =>
    intro buf
    simp only [gpt2Scan, segs]
    by_cases hb : buf = [] <;> simp [hb]
  | cons c cs ih =>
    intro buf
    simp only [gpt2Scan, segs]
    by_cases hc : pyIsSpace c
    · have h1 : gpt2Emit [c] = [[c]] := gpt2Emit_short [c] (by simp)
      by_cases hb : buf = [] <;> simp [hb, hc, ih, h1]
    · simp [hc, ih]

/-- Joining the run decomposition recovers the text. -/
theorem segs_join (cs : List Char) :
    ∀ buf, (segs buf cs).flatten = buf ++ cs := by
  induction cs with
  | nil =>
    intro buf
    by_cases hb : buf = [] <;> simp [segs, hb]
  | cons c cs ih =>
    intro buf
    simp only [segs]
    by_cases hc : pyIsSpace c
    · by_cases hb : buf = [] <;> simp [hb, hc, ih]
    · simp [hc, ih]

/-- The `tokenize_t5` loop followed by the final flush equals the recursive
scanner, for any starting tokens and buffer. -/
theorem t5_foldl_eq (cs : List Char) :
    ∀ (toks : List (List Char)) (buf : List Char),
      t5Finish (cs.foldl t5Step (toks, buf)) = toks ++ t5Scan buf cs := by
  induction cs with
  | nil =>
    intro toks buf
    simp only [List.foldl_nil, t5Scan, t5Finish]
    split
    · simp_all
    · rfl
  | cons c cs ih =>
    intro toks buf
    simp only [List.foldl_cons, t5Scan, t5Step]
    by_cases hc : pyIsSpace c || c ∈ t5Punct
    · simp only [hc, if_true]
      rw [ih]
      by_cases hb : buf = [] <;> simp [hb, List.append_assoc]
    · simp only [hc, if_false]
      exact ih toks (buf ++ [c])

/-- `t5ScanCore` equals the recursive scanner started empty. -/
theorem t5ScanCore_eq (text : List Char) :
    t5ScanCore text = t5Scan [] text := by
  have h := t5_foldl_eq text [] []
  simpa [t5ScanCore, t5Finish] using h

/-- Joining the `tokenize_t5` scan recovers the text. -/
theorem t5Scan_join (cs : List Char) :
    ∀ buf, (t5Scan buf cs).flatten = buf ++ cs := by
  induction cs with
  | nil =>
    intro buf
    by_cases hb : buf = [] <;> simp [t5Scan, hb]
  | cons c cs ih =>
    intro buf
    simp only [t5Scan]
    by_cases hc : pyIsSpace c || c ∈ t5Punct
    · by_cases hb : buf = [] <;> simp [hb, hc, ih]
    · simp [hc, ih]

/-- The `tokenize_t5` scan of a non-empty text (or with a pending buffer)
is non-empty. -/
theorem t5Scan_ne_nil (cs : List Char) :
    ∀ buf, buf ≠ [] ∨ cs ≠ [] → t5Scan buf cs ≠ [] := by
  induction cs with
  | nil =>
    intro buf h
    have hb : buf ≠ [] := h.resolve_right (by simp)
    simp [t5Scan, hb]
  | cons c cs ih =>
    intro buf _
    simp only [t5Scan]
    by_cases hc : pyIsSpace c || c ∈ t5Punct
    · simp [hc]
    · simp only [hc, if_false]
      exact ih (buf ++ [c]) (Or.inl (by simp))

/-- The marker glyph is not a whitespace character. -/
theorem t5Marker_not_space : pyIsSpace t5Marker = false := by decide

/-- Stripping the marker undoes the marker pass on every token. -/
theorem stripMarkerL_t5Mark (t : List Char) :
    stripMarkerL (t5Mark t) = t := by
  by_cases hs : pyStrIsSpace t
  · simp only [t5Mark, hs, if_true]
    cases t with
    | nil => rfl
    | cons c rest =>
      have hc : pyIsSpace c := by
        simp [pyStrIsSpace, List.all_cons] at hs
        exact hs.1
      have hne : c ≠ t5Marker := by
        intro h
        rw [h, t5Marker_not_space] at hc
        exact Bool.false_ne_true hc
      simp [stripMarkerL, hne]
  · simp [t5Mark, hs, stripMarkerL]

/-- The marker pass does not change whether a token is whitespace. -/
theorem pyStrIsSpace_t5Mark (t : List Char) :
    pyStrIsSpace (t5Mark t) = pyStrIsSpace t := by
  by_cases hs : pyStrIsSpace t
  · simp [t5Mark, hs]
  · simp only [t5Mark, hs, if_false]
    simp [pyStrIsSpace, List.all_cons, t5Marker_not_space]

/-- The number of colored tokens equals the number of input tokens. -/
theorem create_colored_length (g : Nat → Nat) (ts : List String) :
    ∀ k, ((create_colored_tokens g k ts).1).length = ts.length := by
  induction ts with
  | nil => intro k; rfl
  | cons t ts ih => intro k; simp [create_colored_tokens, ih]

/-- The texts of the colored tokens are the input tokens, in order. -/
theorem create_colored_texts (g : Nat → Nat) (ts : List String) :
    ∀ k, ((create_colored_tokens g k ts).1).map ColoredToken.text = ts := by
  induction ts with
  | nil => intro k; rfl
  | cons t ts ih => intro k; simp [create_colored_tokens, ih]

/-- Strings built from equal character lists are equal to the original. -/
theorem string_mk_data (s : String) : String.mk s.data = s := rfl

/-- Joining `String.mk`-wrapped lists is `String.mk` of the joined list. -/
theorem string_join_mk (l : List (List Char)) :
    String.join (l.map String.mk) = String.mk l.flatten := by
  have h : ∀ (l : List (List Char)) (a : List Char),
      List.foldl (fun r s => r ++ s) (String.mk a) (l.map String.mk) =
        String.mk (a ++ l.flatten) := by
    intro l
    induction l with
    | nil => intro a; simp
    | cons x xs ih =>
      intro a
      simp only [List.map_cons, List.foldl_cons]
      rw [show String.mk a ++ String.mk x = String.mk (a ++ x) from rfl, ih]
      simp
  simpa [String.join] using h l []

/-! ### The claims -/

/-- C1, counterexample: the punctuation-aware splitter `tokenize_t5` has no
sentinel fallback, so on the empty input string it returns the empty token
sequence, refuting the claim that every segmenter output is non-empty on
every input including the empty string. -/
theorem claim_c1_counterexample : tokenize_t5 "" = [] := rfl

/-- C1 (amended): the character-chunk fallback inside `tokenize_gpt2`
returns a non-empty token sequence on every input string, the empty string
included (it falls back to the sentinel token when scanning yields
nothing); `tokenize_t5` returns a non-empty token sequence on every
non-empty input string, but has no sentinel fallback and returns the empty
sequence on the empty string. -/
theorem claim_c1 (s : String) :
    gpt2_fallback s ≠ [] ∧ (s ≠ "" → tokenize_t5 s ≠ []) := by
  constructor
  · simp only [gpt2_fallback]
    split
    · simp
    · assumption
  · intro hs
    have hd : s.data ≠ [] := by
      intro h
      apply hs
      have hmk : s = String.mk s.data := (string_mk_data s).symm
      rw [h] at hmk
      exact hmk
    simp only [tokenize_t5, t5ScanCore_eq]
    have hne := t5Scan_ne_nil s.data [] (Or.inr hd)
    simp [hne]

/-- C1 witness: the amended statement at the concrete input `"x"`. -/
theorem claim_c1_witness : gpt2_fallback "x" ≠ [] ∧ tokenize_t5 "x" ≠ [] :=
  ⟨(claim_c1 "x").1, (claim_c1 "x").2 (by decide)⟩

/-- C2, counterexample: on `"Hello, world!"` the punctuation-aware splitter
does not return `["▁Hello", ",", "▁world", "!"]` — the marker pass prefixes
every non-whitespace token, punctuation included, and the interior space
survives as its own token. -/
theorem claim_c2_counterexample :
    tokenize_t5 "Hello, world!" ≠ ["▁Hello", ",", "▁world", "!"] := by
  decide

/-- C2 (amended): on `"Hello, world!"` the punctuation-aware splitter
returns exactly `["▁Hello", "▁,", " ", "▁world", "▁!"]`: each punctuation
mark is its own token but carries the word-start marker like every other
non-whitespace token, and the interior space is kept as an unprefixed
whitespace token. -/
theorem claim_c2 :
    tokenize_t5 "Hello, world!" = ["▁Hello", "▁,", " ", "▁world", "▁!"] := by
  decide

/-- C3: the character-chunk fallback of `tokenize_gpt2` is exactly the
decomposition of the text into whitespace characters and maximal
non-whitespace runs with the length rule applied to every segment: a
segment longer than 3 characters becomes exactly a 2-character head plus a
remainder of length at least 2, a segment of length at most 3 stays one
token; the final buffer is flushed through the same `gpt2Emit` rule. -/
theorem claim_c3 (s : String) :
    gpt2FallbackCore s.data = (segs [] s.data).flatMap gpt2Emit
    ∧ (segs [] s.data).flatten = s.data
    ∧ (∀ r : List Char, 3 < r.length →
        gpt2Emit r = [r.take 2, r.drop 2]
        ∧ (r.take 2).length = 2 ∧ 2 ≤ (r.drop 2).length)
    ∧ (∀ r : List Char, r.length ≤ 3 → gpt2Emit r = [r]) := by
  refine ⟨?_, ?_, ?_, ?_⟩
  · rw [gpt2FallbackCore_eq]
    exact gpt2Scan_eq_segs s.data []
  · simpa using segs_join s.data []
  · intro r hr
    refine ⟨by simp [gpt2Emit, hr], by simp; omega, by simp; omega⟩
  · exact fun r hr => gpt2Emit_short r hr

/-- C3 witness: the characterization at the concrete input `"abcd e"`, with
the length rule evaluated on the run `"abcd"` (split as `"ab"`, `"cd"`) and
on the short run `"e"`. -/
theorem claim_c3_witness :
    gpt2FallbackCore "abcd e".data = (segs [] "abcd e".data).flatMap gpt2Emit
    ∧ gpt2Emit "abcd".data = ["ab".data, "cd".data]
    ∧ gpt2Emit "e".data = ["e".data] :=
  ⟨(claim_c3 "abcd e").1,
   ((claim_c3 "abcd e").2.2.1 "abcd".data (by decide)).1,
   (claim_c3 "abcd e").2.2.2 "e".data (by decide)⟩

/-- C4: in the output of `tokenize_t5`, every non-whitespace token starts
with the word-start marker glyph, and every whitespace token is one of the
scanned tokens, unchanged and unprefixed. -/
theorem claim_c4 (s : String) (tok : String) (htok : tok ∈ tokenize_t5 s) :
    (pyStrIsSpace tok.data = false → tok.data.head? = some t5Marker)
    ∧ (pyStrIsSpace tok.data = true → tok.data ∈ t5ScanCore s.data) := by
  simp only [tokenize_t5, List.mem_map] at htok
  obtain ⟨m, ⟨t, ht, rfl⟩, rfl⟩ := htok
  constructor
  · intro hns
    have h : pyStrIsSpace t = false := by
      rw [← pyStrIsSpace_t5Mark]
      exact hns
    simp [t5Mark, h]
  · intro hsp
    have h : pyStrIsSpace t = true := by
      rw [← pyStrIsSpace_t5Mark]
      exact hsp
    simpa [t5Mark, h] using ht

/-- C4 witness: the invariant at the input `"a b"`, on the marked token
`"▁a"` and on the whitespace token `" "`. -/
theorem claim_c4_witness :
    ("▁a" : String).data.head? = some t5Marker
    ∧ (" " : String).data ∈ t5ScanCore "a b".data :=
  ⟨(claim_c4 "a b" "▁a" (by decide)).1 (by decide),
   (claim_c4 "a b" " " (by decide)).2 (by decide)⟩

/-- C5: stripping one leading word-start marker from every token of
`tokenize_t5` and concatenating reconstructs the input exactly, for every
input string. -/
theorem claim_c5 (s : String) :
    String.join ((tokenize_t5 s).map stripMarker) = s := by
  simp only [tokenize_t5, List.map_map]
  have h2 : stripMarker ∘ String.mk ∘ t5Mark = String.mk := by
    funext t
    show String.mk (stripMarkerL (t5Mark t)) = String.mk t
    rw [stripMarkerL_t5Mark]
  rw [h2, string_join_mk, t5ScanCore_eq, t5Scan_join]
  rfl

/-- C6 (modelled from the spec, the generalized splitter is not in src/):
the generalized punctuation splitter consumes a plain interior space
silently but emits a tab as its own token: `"a b"` yields `["a", "b"]` and
`"a\t b"` with a tab yields `["a", "\t", "b"]`. -/
theorem claim_c6 :
    tokenize_general "a b" = ["a", "b"]
    ∧ tokenize_general "a\tb" = ["a", "\t", "b"] :=
  ⟨rfl, rfl⟩

/-- C7: whenever the request handler answers successfully, every backend
entry of the response reports a count equal to the length of its serialized
colored-token list. -/
theorem claim_c7 (g : Nat → Nat) (env : Env) (body : Option String)
    (result : List (String × BackendResult))
    (h : tokenize_route g env body = .ok result) :
    ∀ kv ∈ result, kv.2.count = kv.2.tokens.length := by
  unfold tokenize_route at h
  by_cases he : (body.getD "") = ""
  · simp [he] at h
  · simp only [he, if_false] at h
    injection h with h
    subst h
    intro kv hkv
    simp only [List.mem_cons, List.not_mem_nil, or_false] at hkv
    rcases hkv with rfl | rfl | rfl | rfl | rfl | rfl <;>
      simp [create_colored_length]

/-- C7 witness: the handler run on text `"hi"` with every external resource
failed and the constant-zero random stream; the first backend entry of the
concrete response satisfies the count law. -/
theorem claim_c7_witness :
    (routeResultHi.get ⟨0, by decide⟩).2.count =
      (routeResultHi.get ⟨0, by decide⟩).2.tokens.length :=
  claim_c7 (fun _ => 0) ⟨false, none, none, none, none, none⟩ (some "hi")
    routeResultHi rfl _ (List.get_mem routeResultHi 0 (by decide))

/-- C8: an empty or missing request text is rejected with HTTP 400 and the
message "No text provided" — for every environment of external resources,
so no backend tokenizer affects the rejection — and on every non-empty
text the handler answers successfully, so the boundary rejection is the
only error the caller can see. -/
theorem claim_c8 (g : Nat → Nat) (env : Env) (body : Option String) :
    (body.getD "" = "" →
      tokenize_route g env body = .error (400, "No text provided"))
    ∧ (body.getD "" ≠ "" → (tokenize_route g env body).isOk = true) := by
  constructor
  · intro he
    unfold tokenize_route
    simp [he]
  · intro he
    unfold tokenize_route
    simp [he, Except.isOk, Except.toBool]

/-- C8 witness: a missing text is rejected with the 400 error, and the text
`"hi"` is answered successfully, in a concrete environment. -/
theorem claim_c8_witness :
    tokenize_route (fun _ => 0) ⟨false, none, none, none, none, none⟩ none
      = .error (400, "No text provided")
    ∧ (tokenize_route (fun _ => 0) ⟨false, none, none, none, none, none⟩
        (some "hi")).isOk = true :=
  ⟨(claim_c8 (fun _ => 0) ⟨false, none, none, none, none, none⟩ none).1 rfl,
   (claim_c8 (fun _ => 0) ⟨false, none, none, none, none, none⟩
      (some "hi")).2 (by decide)⟩

/-- C9: with the transformers library unavailable, `tokenize_bert`,
`tokenize_phi3` and `tokenize_llama2` each short-circuit to exactly the
single sentinel token, for every input text and whatever other resources
the environment offers (no fallback segmenter runs). -/
theorem claim_c9 (env : Env) (text : String)
    (h : env.transformers_available = false) :
    tokenize_bert env text = ["[Transformers library not available]"]
    ∧ tokenize_phi3 env text = ["[Transformers library not available]"]
    ∧ tokenize_llama2 env text = ["[Transformers library not available]"] := by
  refine ⟨?_, ?_, ?_⟩ <;>
    simp [tokenize_bert, tokenize_phi3, tokenize_llama2, h]

/-- C9 witness: the three sentinels at the concrete text `"hello"`, in an
environment whose per-model resources are all present, showing they are
never consulted. -/
theorem claim_c9_witness :
    tokenize_bert
        ⟨false, none, none, some (fun t => [t]), some (fun t => [t]),
         some (fun t => [(t, 1)])⟩ "hello"
      = ["[Transformers library not available]"]
    ∧ tokenize_phi3
        ⟨false, none, none, some (fun t => [t]), some (fun t => [t]),
         some (fun t => [(t, 1)])⟩ "hello"
      = ["[Transformers library not available]"]
    ∧ tokenize_llama2
        ⟨false, none, none, some (fun t => [t]), some (fun t => [t]),
         some (fun t => [(t, 1)])⟩ "hello"
      = ["[Transformers library not available]"] :=
  claim_c9
    ⟨false, none, none, some (fun t => [t]), some (fun t => [t]),
     some (fun t => [(t, 1)])⟩ "hello" rfl

/-- C10: the presentation annotator keeps the tokens intact: its output has
the same length as its input and the texts of its entries are exactly the
input tokens in order (each entry carrying its color as the only other
field of `ColoredToken`), for any random stream and cursor. -/
theorem claim_c10 (g : Nat → Nat) (k : Nat) (ts : List String) :
    ((create_colored_tokens g k ts).1).map ColoredToken.text = ts
    ∧ ((create_colored_tokens g k ts).1).length = ts.length :=
  ⟨create_colored_texts g ts k, create_colored_length g ts k⟩

end WordEmbed
